import Mathlib

/-!
Shallow embedding of `migrations/migrate_geostatistical_framework.py`, the
single source file of the `irekua-marco-geoestadistico` repository.

The script is a one-shot Django data migration: it unpacks three zipped
shapefile sets (entity, municipality, locality), then runs three sequential
`Migrator` passes.  Each pass creates one `LocalityType` row carrying a JSON
metadata schema built from the module-level `BASIC_SCHEMA` template, then
iterates the layer's features, normalizing each geometry to a multi-polygon,
reprojecting it, creating one `Locality` row per feature and linking it to its
parents through in-memory lookup stores keyed by geographic code.

Embedding conventions:
* Python dicts used as lookup stores become association lists with
  last-write-wins update (`dictInsert` / `dictLookup`).
* The GDAL geometry layer is abstracted: a polygon is an opaque payload
  (`String`), the coordinate transform is an opaque function on payloads
  passed into the run, and a layer is its declared SRS text together with its
  feature list.
* Database side effects become explicit state: `DB` accumulates the created
  `LocalityType` and `Locality` rows (append-only, a row's id is its index).
* The uncaught Python `KeyError` on a parent-code lookup miss becomes an
  `Except`-style early return that still carries the state mutated so far
  (Django's `objects.create` has already inserted the row for the failing
  feature by the time `create_locality_implications` raises).
* `World` additionally carries the filesystem marker for the extraction
  directory, a ghost counter of performed extractions, and a ghost trace
  recording the level of each processed feature in processing order; these
  only observe behaviour, they never influence it.
* The module-level `BASIC_SCHEMA` dict is mutable shared state:
  `create_metadata_schema` copies it only shallowly (`BASIC_SCHEMA.copy()`),
  so its inner `required` list and `properties` dict are aliased and mutated
  in place by every call.  That inner state is modelled by `SchemaState`,
  threaded through the whole run; the outer `title` key is rebound on the
  shallow copy only, so it is not threaded.
-/

/-- One declared JSON-Schema property: its `type` tag and human `title`
(source lines 142-145). -/
structure PropertySpec where
  type : String
  title : String
deriving DecidableEq, Repr

/-- The JSON schema produced by `create_metadata_schema`: the static keys of
`BASIC_SCHEMA` (source lines 27-33) plus the per-level `required` names and
`properties` entries. -/
structure Schema where
  schemaUri : String
  type : String
  title : String
  required : List String
  properties : List (String × PropertySpec)
deriving DecidableEq, Repr

/-- The mutable inner state of the module-level `BASIC_SCHEMA` dict: its
`required` list and `properties` dict, which are shared (aliased) by every
shallow copy taken in `create_metadata_schema` (source line 137). -/
structure SchemaState where
  required : List String
  properties : List (String × PropertySpec)
deriving DecidableEq, Repr

/-- `BASIC_SCHEMA['$schema']` (source line 28). -/
def BASIC_SCHEMA_uri : String := "http://json-schema.org/draft-07/schema#"

/-- `BASIC_SCHEMA['title']` (source line 30). -/
def BASIC_SCHEMA_title : String := "INEGI Marco Geoestadístico 2018"

/-- The initial mutable state of `BASIC_SCHEMA`: empty `required` list, empty
`properties` dict (source lines 31-32), as found at module import time. -/
def initialSchemaState : SchemaState := ⟨[], []⟩

/-- The module-level `INEGI_DESCRIPTION` text (source lines 23-26). -/
def INEGI_DESCRIPTION : String :=
  "El Marco Geoestadístico (MG) Integrado se conforma por información vectorial, tablas de atributos y catálogos.\nMuestra la división geoestadística del territorio nacional en sucesivos niveles de desagregación. Esta división está dada por los llamados LÍMITES GEOESTADÍSTICOS, que pueden coincidir con los límites político-administrativos oficiales, los cuales tienen sustento legal; sin embargo, los que no cuentan con dicho sustento deben entenderse como límites provisionales, trazados sólo para realizar los operativos censales. Estos límites provisionales no tienen pretensión de oficialidad, dado que el Instituto Nacional de Estadística y Geografía no es el órgano facultado para definir límites político-administrativos.\nEl MG contiene además la cobertura de todas las localidades del territorio nacional, de manera que a cada una de las viviendas le corresponde una secuencia de claves de identificación geográfica que está dada por los sucesivos niveles de desagregación en los que se divide el territorio nacional.\n"

/-- The three migration levels, one per `Migrator` subclass
(source lines 163, 175, 190). -/
inductive Level where
  | entidad
  | municipio
  | localidad
deriving DecidableEq, Repr

/-- The `name` class attribute of each `Migrator` subclass
(source lines 164, 176, 191). -/
def Level.name : Level → String
  | .entidad => "Entidad"
  | .municipio => "Municipio"
  | .localidad => "Localidad"

/-- The `file_name` class attribute of each `Migrator` subclass
(source lines 165, 177, 192). -/
def Level.file_name : Level → String
  | .entidad => "01_32_ent.shp"
  | .municipio => "01_32_mun.shp"
  | .localidad => "01_32_l.shp"

/-- The `attributes` class attribute of each `Migrator` subclass: the list of
(attribute code, human label) pairs (source lines 166-169, 178-182, 193-198). -/
def Level.attributes : Level → List (String × String)
  | .entidad =>
    [("CVEGEO", "Clave de geometria"),
     ("CVE_ENT", "Clave de entidad")]
  | .municipio =>
    [("CVEGEO", "Clave de geometria"),
     ("CVE_ENT", "Clave de entidad"),
     ("CVE_MUN", "Clave de municipio")]
  | .localidad =>
    [("CVEGEO", "Clave de geometria"),
     ("CVE_ENT", "Clave de entidad"),
     ("CVE_MUN", "Clave de municipio"),
     ("CVE_LOC", "Clave de localidad")]

/-- The attribute codes of a level, in declaration order. -/
def Level.codes (lv : Level) : List String := lv.attributes.map Prod.fst

/-- A GDAL geometry as far as the script inspects it: either a single polygon
(`feature.geom_type == 'Polygon'`, source line 102) or a multi-polygon.
The polygon payload is opaque coordinate data. -/
inductive Geometry where
  | polygon (p : String)
  | multiPolygon (ps : List String)
deriving DecidableEq, Repr

/-- One shapefile feature: its `NOMGEO` name attribute, its geometry, and its
attribute table accessed through `feature.get` (source lines 100-109). -/
structure Feature where
  nomgeo : String
  geom : Geometry
  attrs : String → String

/-- A shapefile layer: its declared spatial reference serialized as text
(`layer.srs.wkt`, source line 123) and its feature list (source line 94). -/
structure Layer where
  srsWkt : String
  features : List Feature

/-- Python-dict assignment `d[k] = v` on an association list: overwrite the
value in place if the key is present, else append the new entry. -/
def dictInsert {α : Type} : List (String × α) → String → α → List (String × α)
  | [], k, v => [(k, v)]
  | (k', v') :: rest, k, v =>
    if k' = k then (k, v) :: rest else (k', v') :: dictInsert rest k v

/-- Python-dict access `d[k]` on an association list (first match; keys are
unique under `dictInsert`). -/
def dictLookup {α : Type} : List (String × α) → String → Option α
  | [], _ => none
  | (k', v') :: rest, k => if k' = k then some v' else dictLookup rest k

/-- A parent-lookup store (`self.localities`, source line 81): geographic code
to the id of the created `Locality` row. -/
abbrev Store := List (String × Nat)

/-- The `stores` dict handed to the municipality and locality migrators
(source lines 43-48): the entity store and the municipality store. -/
structure Stores where
  entities : Store
  municipalities : Store

/-- A Python `KeyError` raised by a lookup miss on a parent store
(source lines 185, 201-202). -/
inductive MigError where
  | keyError (key : String)
deriving DecidableEq, Repr

/-- A created `LocalityType` row (source lines 125-131). -/
structure LocalityType where
  metadata_schema : Schema
  name : String
  publication_date : Nat × Nat × Nat
  source : String
  description : String
  original_datum : String
deriving DecidableEq, Repr

/-- A created `Locality` row (source lines 110-116).  `id` is the row's
position in the append-only table, `locality_type` the id of its
`LocalityType` row, `is_part_of` the ids of the parents added by
`create_locality_implications`. -/
structure Locality where
  id : Nat
  name : String
  geometry : Geometry
  locality_type : Nat
  metadata : List (String × String)
  is_part_of : List Nat
deriving DecidableEq, Repr

/-- The database tables written by the migration: `LocalityType` and
`Locality`, both append-only. -/
structure DB where
  localityTypes : List LocalityType
  localities : List Locality
deriving DecidableEq, Repr

/-- `Migrator.create_metadata_schema` (source lines 136-147): shallow-copies
`BASIC_SCHEMA`, rebinds `title` on the copy, then for each attribute appends
its code to the (shared, aliased) `required` list and assigns its property
spec into the (shared, aliased) `properties` dict.  Returns the serialized
schema together with the new shared state of `BASIC_SCHEMA`. -/
def create_metadata_schema (lv : Level) (st : SchemaState) : Schema × SchemaState :=
  let st' := lv.attributes.foldl
    (fun s p => ⟨s.required ++ [p.1], dictInsert s.properties p.1 ⟨"integer", p.2⟩⟩) st
  (⟨BASIC_SCHEMA_uri, "object", lv.name ++ " " ++ BASIC_SCHEMA_title,
    st'.required, st'.properties⟩, st')

/-- `Migrator.create_type` (source lines 118-131): builds the metadata schema,
then creates one `LocalityType` row with the fixed name pattern, the fixed
publication date 2018-12-01, the fixed INEGI source URL, the fixed
description, and the layer's declared SRS as `original_datum`. -/
def create_type (lv : Level) (srsWkt : String) (st : SchemaState) :
    LocalityType × SchemaState :=
  let pr := create_metadata_schema lv st
  (⟨pr.1,
    "MARCO GEOESTADÍSTICO INTEGRADO, DICIEMBRE  2018 (" ++ lv.name ++ ")",
    (2018, 12, 1),
    "https://www.inegi.org.mx/temas/mg/default.html",
    INEGI_DESCRIPTION,
    srsWkt⟩, pr.2)

/-- `Migrator.get_feature_metadata` (source lines 149-153): the feature's
attribute values restricted to the level's declared attribute codes. -/
def get_feature_metadata (lv : Level) (f : Feature) : List (String × String) :=
  lv.attributes.map (fun p => (p.1, f.attrs p.1))

/-- The `if feature.geom_type == 'Polygon'` normalization (source lines
102-106): a single polygon is wrapped into a fresh multi-polygon container;
any other geometry is used as-is. -/
def normalizeGeom : Geometry → Geometry
  | .polygon p => .multiPolygon [p]
  | g => g

/-- `geometry.transform(self.transform)` (source line 107): the coordinate
transform applied to every polygon payload of the geometry. -/
def transformGeom (t : String → String) : Geometry → Geometry
  | .polygon p => .polygon (t p)
  | .multiPolygon ps => .multiPolygon (ps.map t)

/-- `create_locality_implications` (source lines 133-134, 171-172, 184-187,
200-203): given the feature and the id of the row just created, returns the
parent ids added to `is_part_of` and the migrator's updated own store, or the
`KeyError` raised by a parent lookup miss.
* Entity: no parents; records itself under its `CVE_ENT` code.
* Municipality: looks up its parent entity by `CVE_ENT` (raising on a miss),
  then records itself under its `CVE_MUN` code.
* Locality: looks up parent entity by `CVE_ENT` and parent municipality by
  `CVE_MUN` (raising on the first miss); records itself nowhere. -/
def create_locality_implications (lv : Level) (stores : Stores) (f : Feature)
    (locId : Nat) (own : Store) : Except MigError (List Nat × Store) :=
  match lv with
  | .entidad => .ok ([], dictInsert own (f.attrs "CVE_ENT") locId)
  | .municipio =>
    match dictLookup stores.entities (f.attrs "CVE_ENT") with
    | none => .error (.keyError (f.attrs "CVE_ENT"))
    | some e => .ok ([e], dictInsert own (f.attrs "CVE_MUN") locId)
  | .localidad =>
    match dictLookup stores.entities (f.attrs "CVE_ENT") with
    | none => .error (.keyError (f.attrs "CVE_ENT"))
    | some e =>
      match dictLookup stores.municipalities (f.attrs "CVE_MUN") with
      | none => .error (.keyError (f.attrs "CVE_MUN"))
      | some m => .ok ([e, m], own)

/-- Result of processing one feature: the database, the migrator's own store,
and the error if the parent lookup raised. -/
structure CreateResult where
  db : DB
  store : Store
  error : Option MigError

/-- `Migrator.create_locality_from_feature` (source lines 99-116): normalizes
and transforms the geometry, extracts the metadata, creates the `Locality`
row (the database insert happens before the parent lookup, so the error
branch still appends the row, with no parents added), then runs
`create_locality_implications`. -/
def create_locality_from_feature (lv : Level) (stores : Stores)
    (t : String → String) (typeId : Nat) (f : Feature) (db : DB) (own : Store) :
    CreateResult :=
  match create_locality_implications lv stores f db.localities.length own with
  | .error e =>
    ⟨⟨db.localityTypes, db.localities ++
      [⟨db.localities.length, f.nomgeo, transformGeom t (normalizeGeom f.geom),
        typeId, get_feature_metadata lv f, []⟩]⟩, own, some e⟩
  | .ok pr =>
    ⟨⟨db.localityTypes, db.localities ++
      [⟨db.localities.length, f.nomgeo, transformGeom t (normalizeGeom f.geom),
        typeId, get_feature_metadata lv f, pr.1⟩]⟩, pr.2, none⟩

/-- Result of one `Migrator.migrate` pass: the database, the new shared
`BASIC_SCHEMA` state, the migrator's own store (`self.localities`), the ghost
processing trace, and the error that aborted the pass, if any. -/
structure MigResult where
  db : DB
  sch : SchemaState
  store : Store
  lg : List Level
  error : Option MigError

/-- Result of one feature loop: the database, the migrator's own store, the
ghost processing trace, and the error that aborted the loop, if any. -/
structure FeatResult where
  db : DB
  store : Store
  lg : List Level
  error : Option MigError

/-- The `for feature in tqdm(layer)` loop of `Migrator.migrate` (source lines
94-95): processes the features in order, stopping at the first uncaught
`KeyError`.  Each processed feature (the failing one included) appends its
level to the ghost trace. -/
def migrate_features (lv : Level) (stores : Stores) (t : String → String)
    (typeId : Nat) : List Feature → DB → Store → List Level → FeatResult
  | [], db, own, lg => ⟨db, own, lg, none⟩
  | f :: fs, db, own, lg =>
    match create_locality_from_feature lv stores t typeId f db own with
    | ⟨db', own', some e⟩ => ⟨db', own', lg ++ [lv], some e⟩
    | ⟨db', own', none⟩ => migrate_features lv stores t typeId fs db' own' (lg ++ [lv])

/-- `Migrator.migrate` (source lines 84-97): creates the level's
`LocalityType` row (mutating the shared `BASIC_SCHEMA` state), then processes
every feature of the layer.  The coordinate transform `t` abstracts
`get_transform` (source lines 155-160).  The `sch` field of the result is the
shared state after `create_type`; the `store` field is `self.localities`. -/
def Migrator.migrate (lv : Level) (stores : Stores) (t : String → String)
    (layer : Layer) (db : DB) (sch : SchemaState) (lg : List Level) : MigResult :=
  let pr := create_type lv layer.srsWkt sch
  let r := migrate_features lv stores t db.localityTypes.length layer.features
    ⟨db.localityTypes ++ [pr.1], db.localities⟩ [] lg
  ⟨r.db, pr.2, r.store, r.lg, r.error⟩

/-- The whole observable state acted on by the migration: the extraction
directory marker (`os.path.exists(TARGET_DIR)`, source lines 52-53), a ghost
counter of performed extractions, the database, the shared `BASIC_SCHEMA`
state, and the ghost processing trace. -/
structure World where
  fs_unpacked : Bool
  extractions : Nat
  db : DB
  schemaState : SchemaState
  lg : List Level

/-- `data_is_unpacked` (source lines 52-53). -/
def data_is_unpacked (w : World) : Bool := w.fs_unpacked

/-- `unpack_data` (source lines 56-65): extracts the three archives into the
target directory (counted by the ghost `extractions` field). -/
def unpack_data (w : World) : World :=
  ⟨true, w.extractions + 1, w.db, w.schemaState, w.lg⟩

/-- The `if not data_is_unpacked(): unpack_data()` guard (source lines 37-38). -/
def unpackedWorld (w : World) : World :=
  if data_is_unpacked w then w else unpack_data w

/-- `migrate_geostatistical_framework` (source lines 36-49): unpacks the data
if needed, then runs the entity, municipality and locality passes strictly in
that order, handing each pass the stores built by the previous ones.  An
uncaught `KeyError` aborts the run, keeping all state mutated so far. -/
def migrate_geostatistical_framework (t : String → String)
    (entL munL locL : Layer) (w : World) : World × Option MigError :=
  let w1 := unpackedWorld w
  let r1 := Migrator.migrate .entidad ⟨[], []⟩ t entL w1.db w1.schemaState w1.lg
  match r1.error with
  | some e => (⟨w1.fs_unpacked, w1.extractions, r1.db, r1.sch, r1.lg⟩, some e)
  | none =>
    let r2 := Migrator.migrate .municipio ⟨r1.store, []⟩ t munL r1.db r1.sch r1.lg
    match r2.error with
    | some e => (⟨w1.fs_unpacked, w1.extractions, r2.db, r2.sch, r2.lg⟩, some e)
    | none =>
      let r3 := Migrator.migrate .localidad ⟨r1.store, r2.store⟩ t locL r2.db r2.sch r2.lg
      (⟨w1.fs_unpacked, w1.extractions, r3.db, r3.sch, r3.lg⟩, r3.error)

/-!
Specification-side helpers: closed forms for the state produced by the
feature loop, used to state and prove the claims.  They are derived views of
the definitions above, not part of the embedding of the source.
-/

/-- The geographic code under which a level's migrator records itself in its
own store: `CVE_ENT` for entities, `CVE_MUN` for municipalities; the locality
migrator records itself nowhere. -/
def keyOf (lv : Level) (f : Feature) : String :=
  match lv with
  | .entidad => f.attrs "CVE_ENT"
  | .municipio => f.attrs "CVE_MUN"
  | .localidad => ""

/-- Whether `create_locality_implications` succeeds for this feature: the
entity pass always succeeds; the municipality pass needs its `CVE_ENT` in the
entity store; the locality pass needs both parent codes present. -/
def implicationsOk (lv : Level) (stores : Stores) (f : Feature) : Bool :=
  match lv with
  | .entidad => true
  | .municipio => (dictLookup stores.entities (f.attrs "CVE_ENT")).isSome
  | .localidad =>
    (dictLookup stores.entities (f.attrs "CVE_ENT")).isSome &&
      (dictLookup stores.municipalities (f.attrs "CVE_MUN")).isSome

/-- The parent ids `create_locality_implications` adds to `is_part_of`
(empty when the lookup raises, since the raise happens before any `add`). -/
def parentsOf (lv : Level) (stores : Stores) (f : Feature) : List Nat :=
  match lv with
  | .entidad => []
  | .municipio =>
    match dictLookup stores.entities (f.attrs "CVE_ENT") with
    | some e => [e]
    | none => []
  | .localidad =>
    match dictLookup stores.entities (f.attrs "CVE_ENT"),
        dictLookup stores.municipalities (f.attrs "CVE_MUN") with
    | some e, some m => [e, m]
    | _, _ => []

/-- The key whose lookup miss `create_locality_implications` reports: for the
locality pass the municipality key is reported only when the entity key was
found. -/
def errOf (lv : Level) (stores : Stores) (f : Feature) : MigError :=
  match lv with
  | .entidad => .keyError ""
  | .municipio => .keyError (f.attrs "CVE_ENT")
  | .localidad =>
    if (dictLookup stores.entities (f.attrs "CVE_ENT")).isSome
    then .keyError (f.attrs "CVE_MUN") else .keyError (f.attrs "CVE_ENT")

/-- The migrator's own store after one successful feature: entity and
municipality migrators record the new row id under `keyOf`; the locality
migrator leaves the store unchanged. -/
def ownAfter (lv : Level) (own : Store) (f : Feature) (n : Nat) : Store :=
  match lv with
  | .entidad => dictInsert own (f.attrs "CVE_ENT") n
  | .municipio => dictInsert own (f.attrs "CVE_MUN") n
  | .localidad => own

/-- The migrator's own store after successfully processing a feature list,
when the first created row gets id `n`. -/
def storeAfter (lv : Level) : Nat → Store → List Feature → Store
  | _, own, [] => own
  | n, own, f :: fs => storeAfter lv (n + 1) (ownAfter lv own f n) fs

/-- The `Locality` row created for one feature when the new row gets id `n`. -/
def mkRecord (lv : Level) (stores : Stores) (t : String → String) (typeId : Nat)
    (n : Nat) (f : Feature) : Locality :=
  ⟨n, f.nomgeo, transformGeom t (normalizeGeom f.geom), typeId,
    get_feature_metadata lv f, parentsOf lv stores f⟩

/-- The `Locality` rows created for a feature list, first row id `n`. -/
def mkRecords (lv : Level) (stores : Stores) (t : String → String)
    (typeId : Nat) : Nat → List Feature → List Locality
  | _, [] => []
  | n, f :: fs => mkRecord lv stores t typeId n f :: mkRecords lv stores t typeId (n + 1) fs

/-- The entity store handed to the municipality and locality passes of a full
run on world `w`: built by the entity pass, whose first row id is the size of
the pre-existing `Locality` table. -/
def entStoreOf (w : World) (entL : Layer) : Store :=
  storeAfter .entidad w.db.localities.length [] entL.features

/-- The `stores` dict handed to the municipality pass of a full run. -/
def stores1Of (w : World) (entL : Layer) : Stores := ⟨entStoreOf w entL, []⟩

/-- The municipality store handed to the locality pass of a full run: built by
the municipality pass, whose first row id comes after all entity rows. -/
def munStoreOf (w : World) (entL munL : Layer) : Store :=
  storeAfter .municipio (w.db.localities.length + entL.features.length) [] munL.features

/-- The `stores` dict handed to the locality pass of a full run. -/
def stores2Of (w : World) (entL munL : Layer) : Stores :=
  ⟨entStoreOf w entL, munStoreOf w entL munL⟩

/-- Index of each level's `LocalityType` row among the three created by one
run over an initially empty `LocalityType` table. -/
def levelIdx : Level → Nat
  | .entidad => 0
  | .municipio => 1
  | .localidad => 2

/-- A schema declares exactly the attribute codes of a level when its
`required` entries are exactly those codes (as a set), its property keys are
exactly those codes, and each attribute is declared as an integer property
titled with its human label. -/
def declaresExactly (s : Schema) (lv : Level) : Prop :=
  s.required.toFinset = lv.codes.toFinset ∧
  s.properties.map Prod.fst = lv.codes ∧
  (lv.attributes.all
    (fun p => dictLookup s.properties p.1 = some ⟨"integer", p.2⟩)) = true

instance (s : Schema) (lv : Level) : Decidable (declaresExactly s lv) := by
  unfold declaresExactly; infer_instance

/-!
Concrete sample data used by the witnesses and counterexamples: two entity
features, two municipality features that share the municipality code "001"
while lying in different entities, and one locality feature.
-/

/-- Attribute table holding the three geographic codes plus a `CVEGEO`
default. -/
def mkAttrs (ent mun loc geo : String) : String → String :=
  fun k =>
    if k = "CVE_ENT" then ent
    else if k = "CVE_MUN" then mun
    else if k = "CVE_LOC" then loc
    else geo

/-- Sample entity feature, code "01". -/
def fE1 : Feature := ⟨"AGUASCALIENTES", .multiPolygon ["PE1"], mkAttrs "01" "" "" "E1"⟩

/-- Sample entity feature, code "02". -/
def fE2 : Feature := ⟨"BAJA CALIFORNIA", .multiPolygon ["PE2"], mkAttrs "02" "" "" "E2"⟩

/-- Sample municipality feature "001" of entity "01". -/
def fM1 : Feature := ⟨"AGUASCALIENTES", .polygon "PM1", mkAttrs "01" "001" "" "M1"⟩

/-- Sample municipality feature "001" of entity "02": shares its `CVE_MUN`
code with `fM1`. -/
def fM2 : Feature := ⟨"MEXICALI", .polygon "PM2", mkAttrs "02" "001" "" "M2"⟩

/-- Sample municipality feature referencing the entity code "99", which no
entity feature carries. -/
def fMbad : Feature := ⟨"BADMUN", .polygon "PMB", mkAttrs "99" "007" "" "MB"⟩

/-- Sample locality feature in entity "01", municipality "001". -/
def fL1 : Feature := ⟨"GRANJA ADELITA", .polygon "PL1", mkAttrs "01" "001" "0001" "L1"⟩

/-- Sample entity layer. -/
def layE : Layer := ⟨"SRS_ENT", [fE1, fE2]⟩

/-- Sample municipality layer: its two features share the code "001". -/
def layM : Layer := ⟨"SRS_MUN", [fM1, fM2]⟩

/-- Sample municipality layer whose only feature references a missing entity
code. -/
def layMbad : Layer := ⟨"SRS_MUN", [fMbad]⟩

/-- Sample locality layer. -/
def layL : Layer := ⟨"SRS_LOC", [fL1]⟩

/-- Fresh world: data already unpacked, empty database, `BASIC_SCHEMA` in its
import-time state. -/
def w0 : World := ⟨true, 0, ⟨[], []⟩, initialSchemaState, []⟩

/-! Lemmas about the dict model. -/

theorem dictLookup_dictInsert_self {α : Type} (d : List (String × α)) (k : String) (v : α) :
    dictLookup (dictInsert d k v) k = some v := by
  induction d with
  | nil => simp [dictInsert, dictLookup]
  | cons kv rest ih =>
    obtain ⟨k', v'⟩ := kv
    by_cases h : k' = k
    · simp [dictInsert, dictLookup, h]
    · simp [dictInsert, dictLookup, h, ih]

theorem dictLookup_dictInsert_ne {α : Type} (d : List (String × α)) (k k' : String) (v : α)
    (h : k ≠ k') : dictLookup (dictInsert d k v) k' = dictLookup d k' := by
  induction d with
  | nil => simp [dictInsert, dictLookup, h]
  | cons kv rest ih =>
    obtain ⟨ka, va⟩ := kv
    by_cases hk : ka = k
    · subst hk; simp [dictInsert, dictLookup, h]
    · simp [dictInsert, dictLookup, hk, ih]

theorem dictLookup_dictInsert_isSome {α : Type} (d : List (String × α)) (k0 k : String) (v : α) :
    (dictLookup (dictInsert d k0 v) k).isSome ↔ (k = k0 ∨ (dictLookup d k).isSome) := by
  by_cases h : k0 = k
  · subst h; simp [dictLookup_dictInsert_self]
  · rw [dictLookup_dictInsert_ne _ _ _ _ h]
    have h' : ¬k = k0 := fun hk => h hk.symm
    tauto

/-! Lemmas about the own-store evolution. -/

theorem storeAfter_localidad (n : Nat) (own : Store) (fs : List Feature) :
    storeAfter .localidad n own fs = own := by
  induction fs generalizing n own with
  | nil => rfl
  | cons f fs ih => simp [storeAfter, ownAfter, ih]

theorem storeAfter_append (lv : Level) (n : Nat) (own : Store) (xs ys : List Feature) :
    storeAfter lv n own (xs ++ ys) =
      storeAfter lv (n + xs.length) (storeAfter lv n own xs) ys := by
  induction xs generalizing n own with
  | nil => simp [storeAfter]
  | cons f fs ih =>
    show storeAfter lv (n + 1) (ownAfter lv own f n) (fs ++ ys) = _
    rw [ih]
    have h : n + 1 + fs.length = n + (f :: fs).length := by simp; omega
    rw [h]
    rfl

theorem storeAfter_lookup_of_ne (lv : Level) (n : Nat) (own : Store) (fs : List Feature)
    (k : String) (h : ∀ f ∈ fs, keyOf lv f ≠ k) :
    dictLookup (storeAfter lv n own fs) k = dictLookup own k := by
  induction fs generalizing n own with
  | nil => rfl
  | cons f fs ih =>
    have hf : keyOf lv f ≠ k := h f (by simp)
    have hrest : ∀ g ∈ fs, keyOf lv g ≠ k := fun g hg => h g (List.mem_cons_of_mem _ hg)
    show dictLookup (storeAfter lv (n + 1) (ownAfter lv own f n) fs) k = _
    rw [ih _ _ hrest]
    cases lv with
    | entidad => exact dictLookup_dictInsert_ne _ _ _ _ hf
    | municipio => exact dictLookup_dictInsert_ne _ _ _ _ hf
    | localidad => rfl

theorem storeAfter_lookup_isSome (lv : Level) (hlv : lv ≠ .localidad) (n : Nat) (own : Store)
    (fs : List Feature) (k : String) :
    (dictLookup (storeAfter lv n own fs) k).isSome ↔
      ((dictLookup own k).isSome ∨ k ∈ fs.map (keyOf lv)) := by
  induction fs generalizing n own with
  | nil => simp [storeAfter]
  | cons f fs ih =>
    show (dictLookup (storeAfter lv (n + 1) (ownAfter lv own f n) fs) k).isSome ↔ _
    rw [ih]
    cases lv with
    | entidad =>
      simp only [ownAfter, keyOf, dictLookup_dictInsert_isSome, List.map_cons, List.mem_cons]
      tauto
    | municipio =>
      simp only [ownAfter, keyOf, dictLookup_dictInsert_isSome, List.map_cons, List.mem_cons]
      tauto
    | localidad => exact absurd rfl hlv

/-! Closed form of the per-feature step. -/

theorem create_locality_from_feature_eq (lv : Level) (stores : Stores) (t : String → String)
    (typeId : Nat) (f : Feature) (db : DB) (own : Store) :
    create_locality_from_feature lv stores t typeId f db own =
      if implicationsOk lv stores f
      then ⟨⟨db.localityTypes,
              db.localities ++ [mkRecord lv stores t typeId db.localities.length f]⟩,
            ownAfter lv own f db.localities.length, none⟩
      else ⟨⟨db.localityTypes,
              db.localities ++ [mkRecord lv stores t typeId db.localities.length f]⟩,
            own, some (errOf lv stores f)⟩ := by
  cases lv with
  | entidad =>
    simp [create_locality_from_feature, create_locality_implications, implicationsOk,
      mkRecord, parentsOf, ownAfter]
  | municipio =>
    cases h : dictLookup stores.entities (f.attrs "CVE_ENT") <;>
      simp [create_locality_from_feature, create_locality_implications, implicationsOk,
        mkRecord, parentsOf, ownAfter, errOf, h]
  | localidad =>
    cases h1 : dictLookup stores.entities (f.attrs "CVE_ENT") <;>
      cases h2 : dictLookup stores.municipalities (f.attrs "CVE_MUN") <;>
        simp [create_locality_from_feature, create_locality_implications, implicationsOk,
          mkRecord, parentsOf, ownAfter, errOf, h1, h2]

/-! Lemmas about the created rows. -/

theorem mkRecords_length (lv : Level) (stores : Stores) (t : String → String) (ty n : Nat)
    (fs : List Feature) : (mkRecords lv stores t ty n fs).length = fs.length := by
  induction fs generalizing n with
  | nil => rfl
  | cons f fs ih => simp [mkRecords, ih]

theorem mkRecords_getElem (lv : Level) (stores : Stores) (t : String → String) (ty n : Nat)
    (fs : List Feature) (i : Nat) :
    (mkRecords lv stores t ty n fs)[i]? =
      (fs[i]?).map (fun f => mkRecord lv stores t ty (n + i) f) := by
  induction fs generalizing n i with
  | nil => simp [mkRecords]
  | cons f fs ih =>
    cases i with
    | zero => simp [mkRecords]
    | succ j =>
      have h : n + (j + 1) = n + 1 + j := by omega
      simp [mkRecords, ih, h]

theorem getElem_append_offset {α : Type} (l₁ l₂ : List α) (i : Nat) :
    (l₁ ++ l₂)[l₁.length + i]? = l₂[i]? := by
  induction l₁ with
  | nil => simp
  | cons a l ih =>
    have h : (a :: l).length + i = (l.length + i) + 1 := by simp; omega
    rw [h]
    simpa using ih

/-! Closed forms of the feature loop. -/

theorem migrate_features_ok (lv : Level) (stores : Stores) (t : String → String) (ty : Nat)
    (fs : List Feature) (db : DB) (own : Store) (lg : List Level)
    (h : ∀ f ∈ fs, implicationsOk lv stores f = true) :
    migrate_features lv stores t ty fs db own lg =
      ⟨⟨db.localityTypes, db.localities ++ mkRecords lv stores t ty db.localities.length fs⟩,
        storeAfter lv db.localities.length own fs,
        lg ++ List.replicate fs.length lv, none⟩ := by
  induction fs generalizing db own lg with
  | nil => simp [migrate_features, mkRecords, storeAfter]
  | cons f fs ih =>
    have hf := h f (by simp)
    have hrest : ∀ g ∈ fs, implicationsOk lv stores g = true :=
      fun g hg => h g (List.mem_cons_of_mem _ hg)
    rw [migrate_features, create_locality_from_feature_eq]
    simp only [hf, if_true]
    rw [ih _ _ _ hrest]
    simp [mkRecords, storeAfter, List.replicate_succ, List.append_assoc]

theorem migrate_features_abort (lv : Level) (stores : Stores) (t : String → String) (ty : Nat)
    (pre : List Feature) (bad : Feature) (post : List Feature)
    (db : DB) (own : Store) (lg : List Level)
    (hpre : ∀ f ∈ pre, implicationsOk lv stores f = true)
    (hbad : implicationsOk lv stores bad = false) :
    migrate_features lv stores t ty (pre ++ bad :: post) db own lg =
      ⟨⟨db.localityTypes,
          db.localities ++ mkRecords lv stores t ty db.localities.length (pre ++ [bad])⟩,
        storeAfter lv db.localities.length own pre,
        lg ++ List.replicate (pre.length + 1) lv,
        some (errOf lv stores bad)⟩ := by
  induction pre generalizing db own lg with
  | nil =>
    simp only [List.nil_append]
    rw [migrate_features, create_locality_from_feature_eq]
    simp [hbad, mkRecords, storeAfter, List.replicate_succ]
  | cons f fs ih =>
    have hf := hpre f (by simp)
    have hrest : ∀ g ∈ fs, implicationsOk lv stores g = true :=
      fun g hg => hpre g (List.mem_cons_of_mem _ hg)
    rw [List.cons_append, migrate_features, create_locality_from_feature_eq]
    simp only [hf, if_true]
    rw [ih _ _ _ hrest]
    simp [mkRecords, storeAfter, List.replicate_succ, List.append_assoc]

theorem migrate_features_error_none_iff (lv : Level) (stores : Stores) (t : String → String)
    (ty : Nat) (fs : List Feature) (db : DB) (own : Store) (lg : List Level) :
    (migrate_features lv stores t ty fs db own lg).error = none ↔
      ∀ f ∈ fs, implicationsOk lv stores f = true := by
  induction fs generalizing db own lg with
  | nil => simp [migrate_features]
  | cons f fs ih =>
    by_cases hf : implicationsOk lv stores f
    · rw [migrate_features, create_locality_from_feature_eq]
      simp only [hf, if_true]
      simp [ih, hf]
    · rw [migrate_features, create_locality_from_feature_eq]
      simp only [hf, Bool.false_eq_true, if_false]
      simp only [Bool.not_eq_true] at hf
      simp [hf]

/-! Closed forms of one migrator pass. -/

theorem migrate_pass_ok (lv : Level) (stores : Stores) (t : String → String) (layer : Layer)
    (db : DB) (sch : SchemaState) (lg : List Level)
    (h : ∀ f ∈ layer.features, implicationsOk lv stores f = true) :
    Migrator.migrate lv stores t layer db sch lg =
      ⟨⟨db.localityTypes ++ [(create_type lv layer.srsWkt sch).1],
          db.localities ++
            mkRecords lv stores t db.localityTypes.length db.localities.length layer.features⟩,
        (create_type lv layer.srsWkt sch).2,
        storeAfter lv db.localities.length [] layer.features,
        lg ++ List.replicate layer.features.length lv,
        none⟩ := by
  simp only [Migrator.migrate]
  rw [migrate_features_ok _ _ _ _ _ _ _ _ h]

theorem migrate_pass_abort (lv : Level) (stores : Stores) (t : String → String) (srs : String)
    (pre : List Feature) (bad : Feature) (post : List Feature)
    (db : DB) (sch : SchemaState) (lg : List Level)
    (hpre : ∀ f ∈ pre, implicationsOk lv stores f = true)
    (hbad : implicationsOk lv stores bad = false) :
    Migrator.migrate lv stores t ⟨srs, pre ++ bad :: post⟩ db sch lg =
      ⟨⟨db.localityTypes ++ [(create_type lv srs sch).1],
          db.localities ++
            mkRecords lv stores t db.localityTypes.length db.localities.length (pre ++ [bad])⟩,
        (create_type lv srs sch).2,
        storeAfter lv db.localities.length [] pre,
        lg ++ List.replicate (pre.length + 1) lv,
        some (errOf lv stores bad)⟩ := by
  simp only [Migrator.migrate]
  rw [migrate_features_abort _ _ _ _ _ _ _ _ _ _ hpre hbad]

theorem migrate_pass_error_none_iff (lv : Level) (stores : Stores) (t : String → String)
    (layer : Layer) (db : DB) (sch : SchemaState) (lg : List Level) :
    (Migrator.migrate lv stores t layer db sch lg).error = none ↔
      ∀ f ∈ layer.features, implicationsOk lv stores f = true := by
  simp only [Migrator.migrate]
  exact migrate_features_error_none_iff _ _ _ _ _ _ _ _

/-! Components of the unpack guard. -/

theorem unpackedWorld_db (w : World) : (unpackedWorld w).db = w.db := by
  simp only [unpackedWorld, data_is_unpacked, unpack_data]
  split <;> rfl

theorem unpackedWorld_schemaState (w : World) : (unpackedWorld w).schemaState = w.schemaState := by
  simp only [unpackedWorld, data_is_unpacked, unpack_data]
  split <;> rfl

theorem unpackedWorld_lg (w : World) : (unpackedWorld w).lg = w.lg := by
  simp only [unpackedWorld, data_is_unpacked, unpack_data]
  split <;> rfl

theorem unpackedWorld_of_unpacked (w : World) (h : w.fs_unpacked = true) :
    unpackedWorld w = w := by
  simp [unpackedWorld, data_is_unpacked, h]

theorem unpackedWorld_fs_unpacked (w : World) : (unpackedWorld w).fs_unpacked = true := by
  simp only [unpackedWorld, data_is_unpacked, unpack_data]
  split
  · assumption
  · rfl

/-! Closed form of a fully successful run. -/

theorem run_ok_eq (t : String → String) (entL munL locL : Layer) (w : World)
    (h1 : ∀ f ∈ munL.features, implicationsOk .municipio (stores1Of w entL) f = true)
    (h2 : ∀ f ∈ locL.features, implicationsOk .localidad (stores2Of w entL munL) f = true) :
    migrate_geostatistical_framework t entL munL locL w =
      (⟨(unpackedWorld w).fs_unpacked, (unpackedWorld w).extractions,
        ⟨w.db.localityTypes ++
            [(create_type .entidad entL.srsWkt w.schemaState).1,
             (create_type .municipio munL.srsWkt
               (create_type .entidad entL.srsWkt w.schemaState).2).1,
             (create_type .localidad locL.srsWkt
               (create_type .municipio munL.srsWkt
                 (create_type .entidad entL.srsWkt w.schemaState).2).2).1],
          w.db.localities ++
              mkRecords .entidad ⟨[], []⟩ t w.db.localityTypes.length
                w.db.localities.length entL.features ++
            mkRecords .municipio (stores1Of w entL) t (w.db.localityTypes.length + 1)
              (w.db.localities.length + entL.features.length) munL.features ++
            mkRecords .localidad (stores2Of w entL munL) t (w.db.localityTypes.length + 2)
              (w.db.localities.length + entL.features.length + munL.features.length)
              locL.features⟩,
        (create_type .localidad locL.srsWkt
          (create_type .municipio munL.srsWkt
            (create_type .entidad entL.srsWkt w.schemaState).2).2).2,
        w.lg ++ List.replicate entL.features.length .entidad ++
          List.replicate munL.features.length .municipio ++
          List.replicate locL.features.length .localidad⟩, none) := by
  have hent : ∀ f ∈ entL.features, implicationsOk .entidad ⟨[], []⟩ f = true := fun _ _ => rfl
  have h1' : ∀ f ∈ munL.features,
      implicationsOk .municipio
        ⟨storeAfter .entidad w.db.localities.length [] entL.features, []⟩ f = true := by
    simpa [stores1Of, entStoreOf] using h1
  have h2' : ∀ f ∈ locL.features,
      implicationsOk .localidad
        ⟨storeAfter .entidad w.db.localities.length [] entL.features,
          storeAfter .municipio (w.db.localities.length + entL.features.length) []
            munL.features⟩ f = true := by
    simpa [stores2Of, entStoreOf, munStoreOf] using h2
  simp only [migrate_geostatistical_framework, unpackedWorld_db, unpackedWorld_schemaState,
    unpackedWorld_lg]
  rw [migrate_pass_ok _ _ _ _ _ _ _ hent]
  dsimp only
  rw [migrate_pass_ok _ _ _ _ _ _ _ h1']
  dsimp only
  simp only [List.length_append, mkRecords_length, List.length_cons, List.length_nil]
  rw [migrate_pass_ok _ _ _ _ _ _ _ h2']
  dsimp only
  simp [stores1Of, stores2Of, entStoreOf, munStoreOf, List.append_assoc, List.length_append,
    mkRecords_length, Nat.add_assoc]

/-- Closed form of a run aborted by a parent lookup miss in the municipality
pass: the locality pass never starts, the run stops right after creating the
row of the first failing municipality feature. -/
theorem run_abort_mun_eq (t : String → String) (entL locL : Layer) (w : World) (srs : String)
    (pre : List Feature) (bad : Feature) (post : List Feature)
    (hpre : ∀ f ∈ pre, implicationsOk .municipio (stores1Of w entL) f = true)
    (hbad : implicationsOk .municipio (stores1Of w entL) bad = false) :
    migrate_geostatistical_framework t entL ⟨srs, pre ++ bad :: post⟩ locL w =
      (⟨(unpackedWorld w).fs_unpacked, (unpackedWorld w).extractions,
        ⟨w.db.localityTypes ++
            [(create_type .entidad entL.srsWkt w.schemaState).1,
             (create_type .municipio srs
               (create_type .entidad entL.srsWkt w.schemaState).2).1],
          w.db.localities ++
              mkRecords .entidad ⟨[], []⟩ t w.db.localityTypes.length
                w.db.localities.length entL.features ++
            mkRecords .municipio (stores1Of w entL) t (w.db.localityTypes.length + 1)
              (w.db.localities.length + entL.features.length) (pre ++ [bad])⟩,
        (create_type .municipio srs
          (create_type .entidad entL.srsWkt w.schemaState).2).2,
        w.lg ++ List.replicate entL.features.length .entidad ++
          List.replicate (pre.length + 1) .municipio⟩,
       some (errOf .municipio (stores1Of w entL) bad)) := by
  have hent : ∀ f ∈ entL.features, implicationsOk .entidad ⟨[], []⟩ f = true := fun _ _ => rfl
  have hpre' : ∀ f ∈ pre,
      implicationsOk .municipio
        ⟨storeAfter .entidad w.db.localities.length [] entL.features, []⟩ f = true := by
    simpa [stores1Of, entStoreOf] using hpre
  have hbad' : implicationsOk .municipio
      ⟨storeAfter .entidad w.db.localities.length [] entL.features, []⟩ bad = false := by
    simpa [stores1Of, entStoreOf] using hbad
  simp only [migrate_geostatistical_framework, unpackedWorld_db, unpackedWorld_schemaState,
    unpackedWorld_lg]
  rw [migrate_pass_ok _ _ _ _ _ _ _ hent]
  dsimp only
  rw [migrate_pass_abort _ _ _ _ _ _ _ _ _ _ hpre' hbad']
  dsimp only
  simp [stores1Of, entStoreOf, List.append_assoc, List.length_append, mkRecords_length]

/-! Lemmas about the schema fold and the shared `BASIC_SCHEMA` state. -/

theorem schema_fold_required (l : List (String × String)) (st : SchemaState) :
    (l.foldl (fun s p =>
        (⟨s.required ++ [p.1], dictInsert s.properties p.1 ⟨"integer", p.2⟩⟩ : SchemaState))
      st).required = st.required ++ l.map Prod.fst := by
  induction l generalizing st with
  | nil => simp
  | cons p l ih => simp [ih, List.append_assoc]

theorem schema_fold_properties_isSome (l : List (String × String)) (st : SchemaState)
    (k : String) :
    (dictLookup (l.foldl (fun s p =>
        (⟨s.required ++ [p.1], dictInsert s.properties p.1 ⟨"integer", p.2⟩⟩ : SchemaState))
      st).properties k).isSome ↔
      ((dictLookup st.properties k).isSome ∨ k ∈ l.map Prod.fst) := by
  induction l generalizing st with
  | nil => simp
  | cons p l ih =>
    rw [List.foldl_cons, ih]
    simp only [dictLookup_dictInsert_isSome, List.map_cons, List.mem_cons]
    tauto

theorem create_metadata_schema_required (lv : Level) (st : SchemaState) :
    (create_metadata_schema lv st).1.required = st.required ++ lv.codes := by
  simp only [create_metadata_schema, Level.codes]
  exact schema_fold_required _ _

theorem create_metadata_schema_state_required (lv : Level) (st : SchemaState) :
    (create_metadata_schema lv st).2.required = st.required ++ lv.codes := by
  simp only [create_metadata_schema, Level.codes]
  exact schema_fold_required _ _

theorem create_metadata_schema_properties_isSome (lv : Level) (st : SchemaState) (k : String) :
    (dictLookup (create_metadata_schema lv st).1.properties k).isSome ↔
      ((dictLookup st.properties k).isSome ∨ k ∈ lv.codes) := by
  simp only [create_metadata_schema, Level.codes]
  exact schema_fold_properties_isSome _ _ _

theorem create_type_metadata_schema (lv : Level) (srs : String) (st : SchemaState) :
    (create_type lv srs st).1.metadata_schema = (create_metadata_schema lv st).1 := rfl

theorem create_type_schema_state (lv : Level) (srs : String) (st : SchemaState) :
    (create_type lv srs st).2 = (create_metadata_schema lv st).2 := rfl

/-! Characterizations of lookup success against a pass-built store: they only
depend on the key sets of the feature lists, not on the row ids. -/

theorem implicationsOk_municipio_iff (n : Nat) (eF : List Feature) (ms : Store) (f : Feature) :
    implicationsOk .municipio ⟨storeAfter .entidad n [] eF, ms⟩ f = true ↔
      f.attrs "CVE_ENT" ∈ eF.map (keyOf .entidad) := by
  simp only [implicationsOk]
  rw [storeAfter_lookup_isSome .entidad (by simp) n [] eF]
  simp [dictLookup]

theorem implicationsOk_localidad_iff (n m : Nat) (eF mF : List Feature) (f : Feature) :
    implicationsOk .localidad
        ⟨storeAfter .entidad n [] eF, storeAfter .municipio m [] mF⟩ f = true ↔
      (f.attrs "CVE_ENT" ∈ eF.map (keyOf .entidad) ∧
        f.attrs "CVE_MUN" ∈ mF.map (keyOf .municipio)) := by
  simp only [implicationsOk, Bool.and_eq_true]
  rw [storeAfter_lookup_isSome .entidad (by simp) n [] eF,
    storeAfter_lookup_isSome .municipio (by simp) m [] mF]
  simp [dictLookup]

/-- A run that returned no error had every parent lookup succeed in both the
municipality and the locality pass. -/
theorem run_error_none_elim (t : String → String) (entL munL locL : Layer) (w : World)
    (h : (migrate_geostatistical_framework t entL munL locL w).2 = none) :
    (∀ f ∈ munL.features, implicationsOk .municipio (stores1Of w entL) f = true) ∧
      (∀ f ∈ locL.features, implicationsOk .localidad (stores2Of w entL munL) f = true) := by
  have hent : ∀ f ∈ entL.features, implicationsOk .entidad ⟨[], []⟩ f = true := fun _ _ => rfl
  simp only [migrate_geostatistical_framework, unpackedWorld_db, unpackedWorld_schemaState,
    unpackedWorld_lg] at h
  rw [migrate_pass_ok _ _ _ _ _ _ _ hent] at h
  dsimp only at h
  generalize hm : Migrator.migrate .municipio
      ⟨storeAfter .entidad w.db.localities.length [] entL.features, []⟩ t munL
      ⟨w.db.localityTypes ++ [(create_type .entidad entL.srsWkt w.schemaState).1],
        w.db.localities ++ mkRecords .entidad ⟨[], []⟩ t w.db.localityTypes.length
          w.db.localities.length entL.features⟩
      (create_type .entidad entL.srsWkt w.schemaState).2
      (w.lg ++ List.replicate entL.features.length .entidad) = r2 at h
  cases he2 : r2.error with
  | some e => rw [he2] at h; simp at h
  | none =>
    have h1' : ∀ f ∈ munL.features,
        implicationsOk .municipio
          ⟨storeAfter .entidad w.db.localities.length [] entL.features, []⟩ f = true := by
      rw [← hm] at he2
      exact (migrate_pass_error_none_iff _ _ _ _ _ _ _).1 he2
    have h1 : ∀ f ∈ munL.features, implicationsOk .municipio (stores1Of w entL) f = true := by
      simpa [stores1Of, entStoreOf] using h1'
    refine ⟨h1, ?_⟩
    rw [← hm, migrate_pass_ok _ _ _ _ _ _ _ h1'] at he2 h
    rw [he2] at h
    dsimp only at h
    simp only [List.length_append, mkRecords_length] at h
    have h2' := (migrate_pass_error_none_iff _ _ _ _ _ _ _).1 h
    simpa [stores2Of, entStoreOf, munStoreOf] using h2'

/-- Within one `create_metadata_schema` result, the serialized schema's
properties and the shared state's properties are the same (aliased) dict. -/
theorem create_metadata_schema_fst_properties (lv : Level) (st : SchemaState) :
    (create_metadata_schema lv st).1.properties =
      (create_metadata_schema lv st).2.properties := rfl

/-- C8: every `LocalityType` record created by `create_type` carries the fixed
publication date 2018-12-01, the fixed INEGI source URL, the fixed descriptive
text, and the source layer's declared spatial reference system serialized as
text in `original_datum`, regardless of level. -/
theorem c8_create_type_fixed_fields (lv : Level) (srsWkt : String) (st : SchemaState) :
    (create_type lv srsWkt st).1.publication_date = (2018, 12, 1) ∧
    (create_type lv srsWkt st).1.source = "https://www.inegi.org.mx/temas/mg/default.html" ∧
    (create_type lv srsWkt st).1.description = INEGI_DESCRIPTION ∧
    (create_type lv srsWkt st).1.original_datum = srsWkt :=
  ⟨rfl, rfl, rfl, rfl⟩

/-- C4: the row created for a feature is `mkRecord`, whose stored geometry
wraps a single-polygon source geometry into a multi-polygon (never a bare
polygon) and keeps a multi-polygon source geometry as-is, in both cases after
applying the coordinate transform. -/
theorem c4_geometry_wrapping (lv : Level) (stores : Stores) (t : String → String)
    (typeId : Nat) (f : Feature) (db : DB) (own : Store) :
    (create_locality_from_feature lv stores t typeId f db own).db.localities =
      db.localities ++ [mkRecord lv stores t typeId db.localities.length f] ∧
    (∀ p, f.geom = .polygon p →
      (mkRecord lv stores t typeId db.localities.length f).geometry = .multiPolygon [t p]) ∧
    (∀ ps, f.geom = .multiPolygon ps →
      (mkRecord lv stores t typeId db.localities.length f).geometry =
        .multiPolygon (ps.map t)) := by
  refine ⟨?_, ?_, ?_⟩
  · rw [create_locality_from_feature_eq]
    split <;> rfl
  · intro p hp
    simp [mkRecord, hp, normalizeGeom, transformGeom]
  · intro ps hps
    simp [mkRecord, hps, normalizeGeom, transformGeom]

/-- C4 witness: at the sample locality feature, whose source geometry is the
single polygon "PL1", the created row's geometry is that polygon wrapped in a
multi-polygon. -/
theorem c4_geometry_wrapping_witness :
    (create_locality_from_feature .localidad ⟨[], []⟩ id 0 fL1 ⟨[], []⟩ []).db.localities =
      [] ++ [mkRecord .localidad ⟨[], []⟩ id 0 0 fL1] ∧
    (mkRecord .localidad ⟨[], []⟩ id 0 0 fL1).geometry = .multiPolygon [id "PL1"] :=
  ⟨(c4_geometry_wrapping .localidad ⟨[], []⟩ id 0 fL1 ⟨[], []⟩ []).1,
   (c4_geometry_wrapping .localidad ⟨[], []⟩ id 0 fL1 ⟨[], []⟩ []).2.1 "PL1" rfl⟩

/-- C9: `create_metadata_schema` copies `BASIC_SCHEMA` only shallowly, so its
`required` list and `properties` dict are shared mutable state across the
migrators of one process: a later call's generated schema carries the
accumulated attribute codes of every level migrated before it. -/
theorem c9_shallow_copy_accumulates (st : SchemaState) (lv1 lv2 lv3 : Level) :
    (create_metadata_schema lv2 (create_metadata_schema lv1 st).2).1.required =
      st.required ++ lv1.codes ++ lv2.codes ∧
    (create_metadata_schema lv3
        (create_metadata_schema lv2 (create_metadata_schema lv1 st).2).2).1.required =
      st.required ++ lv1.codes ++ lv2.codes ++ lv3.codes ∧
    ((lv1.codes ++ lv2.codes).all (fun c =>
      (dictLookup (create_metadata_schema lv3
          (create_metadata_schema lv2 (create_metadata_schema lv1 st).2).2).1.properties
        c).isSome)) = true := by
  refine ⟨?_, ?_, ?_⟩
  · rw [create_metadata_schema_required, create_metadata_schema_state_required]
  · rw [create_metadata_schema_required, create_metadata_schema_state_required,
      create_metadata_schema_state_required]
  · rw [List.all_eq_true]
    intro c hc
    have hmem : c ∈ lv1.codes ∨ c ∈ lv2.codes := List.mem_append.1 hc
    rw [create_metadata_schema_properties_isSome]
    rcases hmem with hm | hm
    · refine Or.inl ?_
      rw [← create_metadata_schema_fst_properties, create_metadata_schema_properties_isSome]
      refine Or.inl ?_
      rw [← create_metadata_schema_fst_properties, create_metadata_schema_properties_isSome]
      exact Or.inr hm
    · refine Or.inl ?_
      rw [← create_metadata_schema_fst_properties, create_metadata_schema_properties_isSome]
      exact Or.inr hm

/-- C2: failing input for transitive consistency.  On the sample run the
locality feature (entity "01", municipality "001") is linked to entity row 0
and municipality row 3; row 3 is the municipality of entity "02" (the last
one created bearing the shared code "001"), while row 2, the municipality of
entity "01", is not linked.  The linked municipality's own `CVE_ENT` therefore
differs from the locality feature's `CVE_ENT`. -/
theorem c2_transitive_consistency_failing_input :
    (migrate_geostatistical_framework id layE layM layL w0).2 = none ∧
    ((migrate_geostatistical_framework id layE layM layL w0).1.db.localities[4]?).map
      Locality.is_part_of = some [0, 3] ∧
    ((migrate_geostatistical_framework id layE layM layL w0).1.db.localities[3]?).map
      (fun r => dictLookup r.metadata "CVE_ENT") = some (some "02") ∧
    ((migrate_geostatistical_framework id layE layM layL w0).1.db.localities[2]?).map
      (fun r => dictLookup r.metadata "CVE_ENT") = some (some "01") ∧
    fL1.attrs "CVE_ENT" = "01" := by
  decide

/-- C1: in a full run starting from the import-time `BASIC_SCHEMA` state and
an empty `LocalityType` table, the `LocalityType` record created by
`create_type` for each level carries a metadata schema that declares exactly
that level's attribute codes: the `required` entries are exactly those codes,
the property keys are exactly those codes, and each code is declared as an
integer property titled with its human label. -/
theorem c1_metadata_schema_exact (t : String → String) (entL munL locL : Layer) (w : World)
    (hRun : (migrate_geostatistical_framework t entL munL locL w).2 = none)
    (hsch : w.schemaState = initialSchemaState)
    (htypes : w.db.localityTypes = [])
    (lv : Level) :
    ∃ T, (migrate_geostatistical_framework t entL munL locL w).1.db.localityTypes[
        levelIdx lv]? = some T ∧
      declaresExactly T.metadata_schema lv := by
  obtain ⟨h1, h2⟩ := run_error_none_elim _ _ _ _ _ hRun
  rw [run_ok_eq t entL munL locL w h1 h2]
  dsimp only
  rw [htypes, hsch]
  simp only [List.nil_append]
  cases lv with
  | entidad =>
    refine ⟨(create_type .entidad entL.srsWkt initialSchemaState).1, rfl, ?_⟩
    rw [create_type_metadata_schema]
    decide
  | municipio =>
    refine ⟨(create_type .municipio munL.srsWkt
      (create_type .entidad entL.srsWkt initialSchemaState).2).1, rfl, ?_⟩
    simp only [create_type_metadata_schema, create_type_schema_state]
    decide
  | localidad =>
    refine ⟨(create_type .localidad locL.srsWkt
      (create_type .municipio munL.srsWkt
        (create_type .entidad entL.srsWkt initialSchemaState).2).2).1, rfl, ?_⟩
    simp only [create_type_metadata_schema, create_type_schema_state]
    decide

/-- C1 witness: on the sample run, the municipality-level `LocalityType`
declares exactly the municipality attribute codes. -/
theorem c1_metadata_schema_exact_witness :
    ∃ T, (migrate_geostatistical_framework id layE layM layL w0).1.db.localityTypes[
        levelIdx .municipio]? = some T ∧
      declaresExactly T.metadata_schema .municipio :=
  c1_metadata_schema_exact id layE layM layL w0 (by decide) rfl rfl .municipio

/-- C3: in a full run, the row created for the i-th municipality feature has
exactly one parent in its containment set: the entity row stored in the
entity lookup under that feature's `CVE_ENT` code by the entity pass. -/
theorem c3_municipality_single_entity_parent (t : String → String) (entL munL locL : Layer)
    (w : World) (i : Nat) (f : Feature)
    (hRun : (migrate_geostatistical_framework t entL munL locL w).2 = none)
    (hf : munL.features[i]? = some f) :
    ∃ e r, dictLookup (entStoreOf w entL) (f.attrs "CVE_ENT") = some e ∧
      (migrate_geostatistical_framework t entL munL locL w).1.db.localities[
        w.db.localities.length + entL.features.length + i]? = some r ∧
      r.is_part_of = [e] := by
  obtain ⟨h1, h2⟩ := run_error_none_elim _ _ _ _ _ hRun
  have hmem : f ∈ munL.features := List.getElem?_mem hf
  have hok := h1 f hmem
  have hsome : (dictLookup (entStoreOf w entL) (f.attrs "CVE_ENT")).isSome := by
    simpa [implicationsOk, stores1Of] using hok
  obtain ⟨e, he⟩ := Option.isSome_iff_exists.1 hsome
  have hi : i < munL.features.length := by
    rcases Nat.lt_or_ge i munL.features.length with h | h
    · exact h
    · rw [List.getElem?_eq_none h] at hf
      cases hf
  refine ⟨e, mkRecord .municipio (stores1Of w entL) t (w.db.localityTypes.length + 1)
    (w.db.localities.length + entL.features.length + i) f, he, ?_, ?_⟩
  · rw [run_ok_eq t entL munL locL w h1 h2]
    dsimp only
    rw [List.append_assoc]
    have hidx : w.db.localities.length + entL.features.length + i =
        (w.db.localities ++ mkRecords .entidad ⟨[], []⟩ t w.db.localityTypes.length
          w.db.localities.length entL.features).length + i := by
      simp [mkRecords_length]
    rw [hidx, getElem_append_offset]
    have hiB : i < (mkRecords .municipio (stores1Of w entL) t (w.db.localityTypes.length + 1)
        (w.db.localities.length + entL.features.length) munL.features).length := by
      rw [mkRecords_length]
      exact hi
    rw [List.getElem?_append_left hiB, mkRecords_getElem, hf]
    simp only [Option.map_some']
    rw [← hidx]
  · simp [mkRecord, parentsOf, stores1Of, he]

/-- C3 witness: on the sample run, the first municipality row's containment
set is exactly the entity row recorded under code "01". -/
theorem c3_municipality_single_entity_parent_witness :
    ∃ e r, dictLookup (entStoreOf w0 layE) (fM1.attrs "CVE_ENT") = some e ∧
      (migrate_geostatistical_framework id layE layM layL w0).1.db.localities[
        w0.db.localities.length + layE.features.length + 0]? = some r ∧
      r.is_part_of = [e] :=
  c3_municipality_single_entity_parent id layE layM layL w0 0 fM1 (by decide) rfl

/-- C5 counterexample: with one municipality feature referencing the absent
entity code "99", the run aborts with the key error, but a `Locality` row for
that very feature has already been created (the database insert happens
before the parent lookup), contradicting the claim that no record is created
for the failing feature. -/
theorem c5_counterexample :
    (migrate_geostatistical_framework id layE layMbad layL w0).2 =
      some (.keyError "99") ∧
    (migrate_geostatistical_framework id layE layMbad layL w0).1.db.localities.length = 3 ∧
    ((migrate_geostatistical_framework id layE layMbad layL w0).1.db.localities[2]?).map
      Locality.name = some "BADMUN" := by
  decide

/-- C5 (amended): a municipality feature whose `CVE_ENT` code was never
recorded during the entity pass aborts the whole run with an uncaught
key-lookup error; the `Locality` row for the failing feature itself is still
created (with an empty containment set) before the error, and no row for any
subsequent feature — nor any locality-pass row or type — is created. -/
theorem c5_missing_entity_aborts (t : String → String) (entL locL : Layer) (w : World)
    (srs : String) (pre : List Feature) (bad : Feature) (post : List Feature)
    (hpre : ∀ f ∈ pre, implicationsOk .municipio (stores1Of w entL) f = true)
    (hbad : dictLookup (entStoreOf w entL) (bad.attrs "CVE_ENT") = none) :
    (migrate_geostatistical_framework t entL ⟨srs, pre ++ bad :: post⟩ locL w).2 =
      some (.keyError (bad.attrs "CVE_ENT")) ∧
    (migrate_geostatistical_framework t entL ⟨srs, pre ++ bad :: post⟩ locL
        w).1.db.localities.length =
      w.db.localities.length + entL.features.length + pre.length + 1 ∧
    (migrate_geostatistical_framework t entL ⟨srs, pre ++ bad :: post⟩ locL
        w).1.db.localityTypes.length =
      w.db.localityTypes.length + 2 ∧
    ∃ r, (migrate_geostatistical_framework t entL ⟨srs, pre ++ bad :: post⟩ locL
        w).1.db.localities[w.db.localities.length + entL.features.length + pre.length]? =
        some r ∧
      r.name = bad.nomgeo ∧ r.is_part_of = [] := by
  have hbad' : implicationsOk .municipio (stores1Of w entL) bad = false := by
    simp [implicationsOk, stores1Of, hbad]
  rw [run_abort_mun_eq t entL locL w srs pre bad post hpre hbad']
  dsimp only
  refine ⟨?_, ?_, ?_, ?_⟩
  · rfl
  · simp [List.length_append, mkRecords_length]
    omega
  · simp
  · refine ⟨mkRecord .municipio (stores1Of w entL) t (w.db.localityTypes.length + 1)
      (w.db.localities.length + entL.features.length + pre.length) bad, ?_, rfl, ?_⟩
    · have hidx : w.db.localities.length + entL.features.length + pre.length =
          (w.db.localities ++ mkRecords .entidad ⟨[], []⟩ t w.db.localityTypes.length
            w.db.localities.length entL.features).length + pre.length := by
        simp [mkRecords_length]
      rw [hidx, getElem_append_offset, mkRecords_getElem]
      have hg : (pre ++ [bad])[pre.length]? = some bad := by
        simp
      rw [hg]
      simp only [Option.map_some']
      rw [← hidx]
    · simp [mkRecord, parentsOf, stores1Of, hbad]

/-- C5 witness: the amended statement at the concrete sample input. -/
theorem c5_missing_entity_aborts_witness :
    (migrate_geostatistical_framework id layE ⟨"SRS_MUN", [] ++ fMbad :: []⟩ layL w0).2 =
      some (.keyError (fMbad.attrs "CVE_ENT")) ∧
    (migrate_geostatistical_framework id layE ⟨"SRS_MUN", [] ++ fMbad :: []⟩ layL
        w0).1.db.localities.length =
      w0.db.localities.length + layE.features.length + List.length ([] : List Feature) + 1 ∧
    (migrate_geostatistical_framework id layE ⟨"SRS_MUN", [] ++ fMbad :: []⟩ layL
        w0).1.db.localityTypes.length =
      w0.db.localityTypes.length + 2 ∧
    ∃ r, (migrate_geostatistical_framework id layE ⟨"SRS_MUN", [] ++ fMbad :: []⟩ layL
        w0).1.db.localities[
          w0.db.localities.length + layE.features.length +
            List.length ([] : List Feature)]? = some r ∧
      r.name = fMbad.nomgeo ∧ r.is_part_of = [] :=
  c5_missing_entity_aborts id layE layL w0 "SRS_MUN" [] fMbad []
    (by simp) (by decide)

/-- C7: the ghost trace of a full run shows the three level passes running
strictly sequentially: all entity features are processed first, then all
municipality features, then all locality features. -/
theorem c7_sequential_passes (t : String → String) (entL munL locL : Layer) (w : World)
    (hRun : (migrate_geostatistical_framework t entL munL locL w).2 = none) :
    (migrate_geostatistical_framework t entL munL locL w).1.lg =
      w.lg ++ List.replicate entL.features.length .entidad ++
        List.replicate munL.features.length .municipio ++
        List.replicate locL.features.length .localidad := by
  obtain ⟨h1, h2⟩ := run_error_none_elim _ _ _ _ _ hRun
  rw [run_ok_eq t entL munL locL w h1 h2]

/-- C7 witness: the processing trace of the sample run. -/
theorem c7_sequential_passes_witness :
    (migrate_geostatistical_framework id layE layM layL w0).1.lg =
      w0.lg ++ List.replicate layE.features.length .entidad ++
        List.replicate layM.features.length .municipio ++
        List.replicate layL.features.length .localidad :=
  c7_sequential_passes id layE layM layL w0 (by decide)

/-- C10: the municipality lookup store is keyed by the bare `CVE_MUN` code,
so after the municipality pass each code maps to the most recently created
municipality row bearing it: if `g` is the last feature with code `k`, the
store maps `k` to `g`'s row, overwriting any earlier entry. -/
theorem c10_mun_store_last_wins (stores : Stores) (t : String → String) (srs : String)
    (pre : List Feature) (g : Feature) (post : List Feature) (db : DB) (sch : SchemaState)
    (lg : List Level) (k : String)
    (hok : ∀ f ∈ pre ++ g :: post, implicationsOk .municipio stores f = true)
    (hk : g.attrs "CVE_MUN" = k)
    (hpost : ∀ f ∈ post, f.attrs "CVE_MUN" ≠ k) :
    dictLookup (Migrator.migrate .municipio stores t ⟨srs, pre ++ g :: post⟩ db sch lg).store
        k = some (db.localities.length + pre.length) ∧
    ∃ r, (Migrator.migrate .municipio stores t ⟨srs, pre ++ g :: post⟩ db sch
        lg).db.localities[db.localities.length + pre.length]? = some r ∧
      dictLookup r.metadata "CVE_MUN" = some k := by
  rw [migrate_pass_ok _ _ _ _ _ _ _ hok]
  dsimp only
  constructor
  · rw [storeAfter_append]
    simp only [storeAfter]
    rw [storeAfter_lookup_of_ne .municipio _ _ post k
      (fun f hf => by simpa [keyOf] using hpost f hf)]
    simp [ownAfter, hk, dictLookup_dictInsert_self]
  · refine ⟨mkRecord .municipio stores t db.localityTypes.length
      (db.localities.length + pre.length) g, ?_, ?_⟩
    · rw [getElem_append_offset, mkRecords_getElem]
      have hg : (pre ++ g :: post)[pre.length]? = some g := by
        have h0 := getElem_append_offset pre (g :: post) 0
        simpa using h0
      rw [hg]
      rfl
    · simp [mkRecord, get_feature_metadata, Level.attributes, dictLookup, hk]

/-- C10 witness: the two sample municipality features share the code "001";
after the pass the store maps "001" to the second (last created) row, whose
own `CVE_MUN` is "001". -/
theorem c10_mun_store_last_wins_witness :
    dictLookup (Migrator.migrate .municipio ⟨[("01", 0), ("02", 1)], []⟩ id
        ⟨"SRS_MUN", [fM1] ++ fM2 :: []⟩ ⟨[], []⟩ initialSchemaState []).store "001" =
      some ((⟨[], []⟩ : DB).localities.length + List.length [fM1]) ∧
    ∃ r, (Migrator.migrate .municipio ⟨[("01", 0), ("02", 1)], []⟩ id
        ⟨"SRS_MUN", [fM1] ++ fM2 :: []⟩ ⟨[], []⟩ initialSchemaState
        []).db.localities[(⟨[], []⟩ : DB).localities.length + List.length [fM1]]? = some r ∧
      dictLookup r.metadata "CVE_MUN" = some "001" :=
  c10_mun_store_last_wins ⟨[("01", 0), ("02", 1)], []⟩ id "SRS_MUN" [fM1] fM2 []
    ⟨[], []⟩ initialSchemaState [] "001" (by decide) rfl (by simp)

/-- The unpack guard is a no-op on a world whose extraction directory already
exists. -/
theorem unpackedWorld_mk_true (ex : Nat) (db : DB) (sch : SchemaState) (lg : List Level) :
    unpackedWorld ⟨true, ex, db, sch, lg⟩ = ⟨true, ex, db, sch, lg⟩ := rfl

/-- C6: running the migration when the extraction directory already exists
performs no extraction (in either run), yet each run creates a fresh set of
`LocalityType` and `Locality` rows for every level and feature: after running
twice, the tables hold twice the records of one run. -/
theorem c6_rerun_skips_unpack_doubles_records (t : String → String)
    (entL munL locL : Layer) (w : World)
    (hU : w.fs_unpacked = true)
    (hRun : (migrate_geostatistical_framework t entL munL locL w).2 = none) :
    (migrate_geostatistical_framework t entL munL locL
        (migrate_geostatistical_framework t entL munL locL w).1).2 = none ∧
    (migrate_geostatistical_framework t entL munL locL w).1.extractions = w.extractions ∧
    (migrate_geostatistical_framework t entL munL locL
        (migrate_geostatistical_framework t entL munL locL w).1).1.extractions =
      w.extractions ∧
    (migrate_geostatistical_framework t entL munL locL
        (migrate_geostatistical_framework t entL munL locL
          w).1).1.db.localityTypes.length =
      w.db.localityTypes.length + 6 ∧
    (migrate_geostatistical_framework t entL munL locL
        (migrate_geostatistical_framework t entL munL locL w).1).1.db.localities.length =
      w.db.localities.length +
        2 * (entL.features.length + munL.features.length + locL.features.length) := by
  obtain ⟨h1, h2⟩ := run_error_none_elim _ _ _ _ _ hRun
  have h1m : ∀ f ∈ munL.features, f.attrs "CVE_ENT" ∈ entL.features.map (keyOf .entidad) := by
    intro f hfm
    exact (implicationsOk_municipio_iff w.db.localities.length entL.features [] f).1
      (h1 f hfm)
  have h2m : ∀ f ∈ locL.features,
      f.attrs "CVE_ENT" ∈ entL.features.map (keyOf .entidad) ∧
        f.attrs "CVE_MUN" ∈ munL.features.map (keyOf .municipio) := by
    intro f hfl
    exact (implicationsOk_localidad_iff w.db.localities.length
      (w.db.localities.length + entL.features.length) entL.features munL.features f).1
      (h2 f hfl)
  have H1 : ∀ v : World, ∀ f ∈ munL.features,
      implicationsOk .municipio (stores1Of v entL) f = true := by
    intro v f hfm
    exact (implicationsOk_municipio_iff v.db.localities.length entL.features [] f).2
      (h1m f hfm)
  have H2 : ∀ v : World, ∀ f ∈ locL.features,
      implicationsOk .localidad (stores2Of v entL munL) f = true := by
    intro v f hfl
    exact (implicationsOk_localidad_iff v.db.localities.length
      (v.db.localities.length + entL.features.length) entL.features munL.features f).2
      (h2m f hfl)
  rw [run_ok_eq t entL munL locL w (H1 w) (H2 w)]
  dsimp only
  rw [unpackedWorld_of_unpacked w hU, hU]
  rw [run_ok_eq t entL munL locL _ (H1 _) (H2 _)]
  rw [unpackedWorld_mk_true]
  dsimp only
  refine ⟨rfl, rfl, rfl, ?_, ?_⟩
  · simp only [List.length_append, List.length_cons, List.length_nil]
  · simp only [List.length_append, mkRecords_length]
    omega

/-- C6 witness: the double run on the sample input. -/
theorem c6_rerun_skips_unpack_doubles_records_witness :
    (migrate_geostatistical_framework id layE layM layL
        (migrate_geostatistical_framework id layE layM layL w0).1).2 = none ∧
    (migrate_geostatistical_framework id layE layM layL w0).1.extractions =
      w0.extractions ∧
    (migrate_geostatistical_framework id layE layM layL
        (migrate_geostatistical_framework id layE layM layL w0).1).1.extractions =
      w0.extractions ∧
    (migrate_geostatistical_framework id layE layM layL
        (migrate_geostatistical_framework id layE layM layL
          w0).1).1.db.localityTypes.length =
      w0.db.localityTypes.length + 6 ∧
    (migrate_geostatistical_framework id layE layM layL
        (migrate_geostatistical_framework id layE layM layL w0).1).1.db.localities.length =
      w0.db.localities.length +
        2 * (layE.features.length + layM.features.length + layL.features.length) :=
  c6_rerun_skips_unpack_doubles_records id layE layM layL w0 rfl (by decide)
